import Mathlib

/-!
Verification development for the PermisCollecte repository.

The definitions below are a shallow embedding, in Lean, of the code in
`src/server/services/qr-crypto.ts`, `src/server/routes.ts`,
`src/shared/schema.ts`, `src/client/src/components/permit-card.tsx` and
`src/client/src/pages/permit-form.tsx`.  Machine-level collaborators that
the TypeScript code calls out to (the Node `crypto.verify`, the WHATWG URL
parser, the database) are abstracted as explicit oracle parameters, and
JavaScript strings are modelled as Lean strings (lists of Unicode scalar
values).  The offline write queue (`client/src/lib/offline-storage.ts`)
is not part of the provided sources, so it is modelled from the spec; the
corresponding definitions say so in their doc comments.
-/

namespace PermisCollecte

/-! ## The QR payload (interface QRPayload, qr-crypto.ts lines 12-16)

`id` is the permit identifier, `ts` the issuance timestamp in epoch
milliseconds, `v` the protocol version.  JavaScript numbers holding
integral epoch timestamps are modelled as `Int`. -/

structure QRPayload where
  id : String
  ts : Int
  v : Int
deriving Repr, DecidableEq

/-! ## JSON serialization (JSON.stringify of a QRPayload object)

`JSON.stringify({id, ts, v})` emits the members in insertion order with
no whitespace: `{"id":<string>,"ts":<int>,"v":<int>}`.  The string
member is quoted with the standard JSON escapes (lowercase `\u00xy`
forms for control characters, as JSON.stringify produces). -/

/-- Decimal digits of `n`, least significant first, with explicit fuel
so the definition reduces in the kernel; with enough fuel this is
`Nat.digits 10 n`. -/
def natDigitsRev : Nat → Nat → List Nat
  | 0, _ => []
  | fuel + 1, n => if n = 0 then [] else n % 10 :: natDigitsRev fuel (n / 10)

/-- Decimal digits of `n`, most significant first; `"0"` for zero,
matching JavaScript number-to-string on integral values. -/
def natToChars (n : Nat) : List Char :=
  if n = 0 then ['0'] else (natDigitsRev n n).reverse.map Nat.digitChar

/-- JavaScript decimal printing of an integral number (a leading `-` for
negative values). -/
def intToChars (n : Int) : List Char :=
  if n < 0 then '-' :: natToChars n.natAbs else natToChars n.toNat

/-- JSON escape of one character, exactly the forms `JSON.stringify`
emits: `\"`, `\\`, `\b`, `\t`, `\n`, `\f`, `\r`, and lowercase `\u00xy`
for the remaining control characters; every other character is emitted
verbatim. -/
def escapeChar (c : Char) : List Char :=
  if c = '"' then ['\\', '"']
  else if c = '\\' then ['\\', '\\']
  else if c.toNat = 8 then ['\\', 'b']
  else if c.toNat = 9 then ['\\', 't']
  else if c.toNat = 10 then ['\\', 'n']
  else if c.toNat = 12 then ['\\', 'f']
  else if c.toNat = 13 then ['\\', 'r']
  else if c.toNat < 32 then
    ['\\', 'u', '0', '0', Nat.digitChar (c.toNat / 16), Nat.digitChar (c.toNat % 16)]
  else [c]

/-- JSON escape of a character sequence. -/
def escapeString (cs : List Char) : List Char := cs.flatMap escapeChar

/-- `JSON.stringify({id: p.id, ts: p.ts, v: p.v})` as a character list:
the canonical payload bytes of qr-crypto.ts line 25 (`Buffer.from`
applies UTF-8, a bijection on well-formed strings, so the byte string is
modelled by the character string itself). -/
def jsonStringifyPayload (p : QRPayload) : List Char :=
  ['{', '"', 'i', 'd', '"', ':', '"'] ++ escapeString p.id.data
    ++ ['"', ',', '"', 't', 's', '"', ':'] ++ intToChars p.ts
    ++ [',', '"', 'v', '"', ':'] ++ intToChars p.v ++ ['}']

/-! ## JSON parsing (JSON.parse restricted to the QRPayload schema)

`verifyQRSignature` runs `JSON.parse(payloadBuffer.toString()) as
QRPayload`.  The parser below accepts the documents of the exact shape
`{"id":<string>,"ts":<int>,"v":<int>}` (the shape every encoded payload
has); on other inputs it returns `none`, which the embedding treats the
same way the TypeScript `catch` treats a `JSON.parse` throw. -/

/-- Value of a hexadecimal digit character, case-insensitive. -/
def hexVal (c : Char) : Option Nat :=
  if '0' ≤ c ∧ c ≤ '9' then some (c.toNat - 48)
  else if 'a' ≤ c ∧ c ≤ 'f' then some (c.toNat - 87)
  else if 'A' ≤ c ∧ c ≤ 'F' then some (c.toNat - 55)
  else none

/-- Value of a decimal digit character. -/
def digitVal (c : Char) : Nat := c.toNat - 48

/-- Split a leading run of decimal digits off a character list,
returning their values most significant first. -/
def takeDigits : List Char → List Nat × List Char
  | [] => ([], [])
  | c :: cs =>
    if c.isDigit then
      let (ds, rest) := takeDigits cs
      (digitVal c :: ds, rest)
    else ([], c :: cs)

/-- Parse a nonempty run of decimal digits as a natural number. -/
def parseNat (cs : List Char) : Option (Nat × List Char) :=
  match takeDigits cs with
  | ([], _) => none
  | (ds, rest) => some (Nat.ofDigits 10 ds.reverse, rest)

/-- Parse an optionally minus-signed decimal integer. -/
def parseInt (cs : List Char) : Option (Int × List Char) :=
  if cs.head? = some '-' then
    (parseNat cs.tail).map (fun q => (-(q.1 : Int), q.2))
  else
    (parseNat cs).map (fun q => ((q.1 : Int), q.2))

/-- Parse the body of a JSON string up to and including the closing
quote, handling the JSON escapes (`\uXXXX` only for Unicode scalar
values, which are the only code points a Lean `Char` can carry). -/
def parseStringBody : List Char → Option (List Char × List Char)
  | [] => none
  | '"' :: rest => some ([], rest)
  | '\\' :: '"' :: rest => (parseStringBody rest).map (fun q => ('"' :: q.1, q.2))
  | '\\' :: '\\' :: rest => (parseStringBody rest).map (fun q => ('\\' :: q.1, q.2))
  | '\\' :: '/' :: rest => (parseStringBody rest).map (fun q => ('/' :: q.1, q.2))
  | '\\' :: 'b' :: rest => (parseStringBody rest).map (fun q => (Char.ofNat 8 :: q.1, q.2))
  | '\\' :: 't' :: rest => (parseStringBody rest).map (fun q => (Char.ofNat 9 :: q.1, q.2))
  | '\\' :: 'n' :: rest => (parseStringBody rest).map (fun q => (Char.ofNat 10 :: q.1, q.2))
  | '\\' :: 'f' :: rest => (parseStringBody rest).map (fun q => (Char.ofNat 12 :: q.1, q.2))
  | '\\' :: 'r' :: rest => (parseStringBody rest).map (fun q => (Char.ofNat 13 :: q.1, q.2))
  | '\\' :: 'u' :: h1 :: h2 :: h3 :: h4 :: rest =>
    match hexVal h1, hexVal h2, hexVal h3, hexVal h4 with
    | some a, some b, some c, some d =>
      let n := a * 4096 + b * 256 + c * 16 + d
      if n < 55296 then (parseStringBody rest).map (fun q => (Char.ofNat n :: q.1, q.2))
      else none
    | _, _, _, _ => none
  | '\\' :: _ => none
  | c :: rest => (parseStringBody rest).map (fun q => (c :: q.1, q.2))

/-- Parse a document of the shape `{"id":<string>,"ts":<int>,"v":<int>}`
into a `QRPayload`; the model of `JSON.parse(...) as QRPayload` on the
payload schema. -/
def parsePayloadChars (cs : List Char) : Option QRPayload :=
  match cs with
  | '{' :: '"' :: 'i' :: 'd' :: '"' :: ':' :: '"' :: rest =>
    match parseStringBody rest with
    | none => none
    | some (idChars, rest1) =>
      match rest1 with
      | ',' :: '"' :: 't' :: 's' :: '"' :: ':' :: rest2 =>
        match parseInt rest2 with
        | none => none
        | some (ts, rest3) =>
          match rest3 with
          | ',' :: '"' :: 'v' :: '"' :: ':' :: rest4 =>
            match parseInt rest4 with
            | none => none
            | some (v, rest5) =>
              match rest5 with
              | ['}'] => some ⟨⟨idChars⟩, ts, v⟩
              | _ => none
          | _ => none
      | _ => none
  | _ => none

/-! ## Signing and verification (qr-crypto.ts) -/

/-- The 24-hour freshness window of qr-crypto.ts line 54:
`const maxAge = 24 * 60 * 60 * 1000;`. -/
def maxAge : Int := 24 * 60 * 60 * 1000

/-- Embedding of `generateQRPayload` (qr-crypto.ts lines 18-36): the
structured value it serializes and signs, with `Date.now()` passed in as
`now`.  The version is the constant 1. -/
def generateQRPayloadData (permitId : String) (now : Int) : QRPayload :=
  ⟨permitId, now, 1⟩

/-- Embedding of `verifyQRSignature` (qr-crypto.ts lines 38-61).
`sigValid` abstracts the result of `crypto.verify` over the decoded
payload bytes and signature bytes; `payloadChars` is the base64-decoded
payload text (`Buffer.from(payload, base64).toString()`); `now` is
`Date.now()`.  Mirrors the source order: signature check, then JSON
parse (a parse failure is caught and becomes `null`), then the freshness
check `Date.now() - qrData.ts > maxAge`. -/
def verifyQRSignature (sigValid : Bool) (payloadChars : List Char) (now : Int) :
    Option QRPayload :=
  if sigValid = false then none
  else
    match parsePayloadChars payloadChars with
    | none => none
    | some qrData => if now - qrData.ts > maxAge then none else some qrData

/-! ## Key-material initialization (qr-crypto.ts lines 1-10)

The module throws at load time when either environment variable is
absent; in JavaScript `!s` is also true for the empty string.  The keys
are `const` bindings, never reassigned. -/

/-- JavaScript truthiness of an optional environment string: `undefined`
and `""` are falsy. -/
def envTruthy : Option String → Bool
  | none => false
  | some s => s ≠ ""

/-- Process-wide key material after successful module initialization. -/
structure KeyMaterial where
  privateKey : String
  publicKey : String
deriving Repr, DecidableEq

/-- Embedding of the module-load check of qr-crypto.ts lines 3-10: fatal
(`Except.error`) when either variable is missing or empty, otherwise the
two `const` bindings holding exactly the environment values. -/
def initKeys (priv pub : Option String) : Except String KeyMaterial :=
  if envTruthy priv = false ∨ envTruthy pub = false then
    Except.error "QR_PRIVATE_KEY and QR_PUBLIC_KEY environment variables must be set"
  else
    Except.ok ⟨priv.getD "", pub.getD ""⟩

/-- Embedding of `getPublicKey` (qr-crypto.ts lines 63-65): reads the
initialized key material, never writes it. -/
def getPublicKey (k : KeyMaterial) : String := k.publicKey

/-- Modelled from the spec: a PEM-formatted key block begins with a
`-----BEGIN` header (the `format: pem` expectation the source hands to
the Node crypto layer); used only to state what a malformed key is.  The source
under src/ contains no such check. -/
def looksLikePem (s : String) : Bool := List.isPrefixOf "-----BEGIN".data s.data

/-! ## Business expiration (the three comparison sites)

Dates are modelled at epoch-millisecond precision; `new Date(a) <= new
Date(b)` in JavaScript coerces both sides through `valueOf()` to their
millisecond values. -/

/-- routes.ts lines 236-238: `const isExpired = expiration <= now;` in
the verify endpoint. -/
def isExpiredVerifyRoute (expirationMillis nowMillis : Int) : Bool :=
  expirationMillis ≤ nowMillis

/-- routes.ts line 278: `new Date(permit.dateExpiration) <= new Date()`
in the CSV export. -/
def isExpiredCsvExport (expirationMillis nowMillis : Int) : Bool :=
  expirationMillis ≤ nowMillis

/-- permit-card.tsx line 12: `new Date(permit.dateExpiration) <= new
Date()` in the client card display. -/
def isExpiredPermitCard (expirationMillis nowMillis : Int) : Bool :=
  expirationMillis ≤ nowMillis

/-! ## The verify endpoint (routes.ts lines 200-264, POST /api/scans/verify) -/

/-- The parts of a permit record the verify endpoint uses: expiration
instant (millisecond value of `permit.dateExpiration`) and the optional
card identifier (`permit.card?.id`). -/
structure PermitRecord where
  dateExpirationMillis : Int
  cardId : Option String
deriving Repr, DecidableEq

/-- One row appended to `scan_logs` (schema.ts lines 77-84), restricted
to the fields the endpoint writes: `cardId`, `agentId` (always null
here), `result` and `mode`. -/
structure ScanLogEntry where
  cardId : Option String
  agentId : Option String
  result : String
  mode : String
deriving Repr, DecidableEq

/-- The observable outcome of `new URL(qrData)`: protocol, hostname and
the two query parameters the endpoint reads (`searchParams.get` returns
null for an absent parameter). -/
structure ParsedUrl where
  protocol : String
  hostname : String
  d : Option String
  s : Option String
deriving Repr, DecidableEq

/-- The distinct HTTP responses of the verify endpoint. -/
inductive VerifyResponse where
  /-- 400 `Invalid QR code format` — no `result` field. -/
  | badFormat : VerifyResponse
  /-- 400 `Missing QR code data` — no `result` field. -/
  | missingData : VerifyResponse
  /-- 400 `Invalid QR code signature`, result field `invalid`. -/
  | invalidSignature : VerifyResponse
  /-- 404 `Permit not found`, result field `invalid`. -/
  | notFound : VerifyResponse
  /-- 200 with result field `expired` or `valid` and the permit summary. -/
  | ok (isExpired : Bool) (permit : PermitRecord) : VerifyResponse
  /-- 500 `Failed to verify QR code` from the outer catch — no `result`
  field. -/
  | serverError : VerifyResponse
deriving Repr, DecidableEq

/-- Whether a response carries one of the defined result
classifications (`result: valid | invalid | expired`). -/
def hasClassification : VerifyResponse → Bool
  | .invalidSignature => true
  | .notFound => true
  | .ok _ _ => true
  | _ => false

/-- The shape check of routes.ts lines 204-215: scheme `peche:`, host
`verify`, and both `d` and `s` present. -/
def shapeOk (u : ParsedUrl) : Bool :=
  u.protocol = "peche:" && u.hostname = "verify" && u.d.isSome && u.s.isSome

/-- Embedding of the POST /api/scans/verify handler (routes.ts lines
200-264).  `urlParse` is the outcome of `new URL(qrData)` (`none` when
the constructor throws, which the outer catch turns into a 500);
`sigValid` abstracts `crypto.verify` over the two raw base64 query
strings; `b64decode` abstracts `Buffer.from(payload, base64).toString()`; `store` abstracts `storage.getPermit`.  Returns the
response together with the list of scan-log rows appended. -/
def verifyRoute (urlParse : Option ParsedUrl)
    (sigValid : String → String → Bool)
    (b64decode : String → List Char)
    (store : String → Option PermitRecord)
    (now : Int) : VerifyResponse × List ScanLogEntry :=
  match urlParse with
  | none => (.serverError, [])
  | some u =>
    if ¬(u.protocol = "peche:" ∧ u.hostname = "verify") then (.badFormat, [])
    else
      match u.d, u.s with
      | some payload, some signature =>
        match verifyQRSignature (sigValid payload signature) (b64decode payload) now with
        | none => (.invalidSignature, [])
        | some qrPayload =>
          match store qrPayload.id with
          | none => (.notFound, [])
          | some permit =>
            let isExpired := isExpiredVerifyRoute permit.dateExpirationMillis now
            ((.ok isExpired permit),
              [⟨permit.cardId, none, if isExpired then "expired" else "valid", "online"⟩])
      | _, _ => (.missingData, [])

/-! ## The offline write queue

Modelled from the spec: the Offline Write Queue and its `drain` (spec
sections 4.4 and 6) live in `client/src/lib/offline-storage.ts` and the
server storage layer, neither of which is under src/ — only the caller
`permit-form.tsx` (offlineStorage.savePermit) and the uniqueness
constraint `permits.numSerie` (schema.ts line 23) are.  The state
machine below follows the spec text: a PendingOperation keyed by a
client-generated idempotency key moves through pending / in-flight /
failed / committed; the server commits a key at most once and answers a
duplicate-key rejection for a key it has already committed, which the
drain treats as success. -/

/-- Status of a PendingOperation (spec section 3). -/
inductive OpStatus where
  | pending : OpStatus
  | inFlight : OpStatus
  | failed : OpStatus
  | committed : OpStatus
deriving Repr, DecidableEq

/-- Modelled from the spec: a PendingOperation of the Offline Write
Queue, reduced to the fields the exactly-once argument needs. -/
structure PendingOp where
  idempotencyKey : String
  attemptCount : Nat
  status : OpStatus
deriving Repr, DecidableEq

/-- Modelled from the spec: the authoritative store as seen by the
drain — the keys of the records it has committed, newest first. -/
structure ServerState where
  committedKeys : List String
deriving Repr, DecidableEq

/-- Modelled from the spec: the outcome of one submission attempt as
the network delivers it — delivered to the store, rejected by
validation, or lost to a transient failure. -/
inductive SubmitOutcome where
  | delivered : SubmitOutcome
  | validationReject : SubmitOutcome
  | transientFailure : SubmitOutcome
deriving Repr, DecidableEq

/-- Modelled from the spec: the authoritative create endpoint with
idempotency-key de-duplication — atomically create-or-reject; the
boolean is `true` for a fresh commit and `false` for a duplicate-key
rejection, which leaves the store unchanged. -/
def serverSubmit (srv : ServerState) (key : String) : Bool × ServerState :=
  if key ∈ srv.committedKeys then (false, srv)
  else (true, ⟨key :: srv.committedKeys⟩)

/-- Modelled from the spec: the per-entry drain transition (spec section
4.4).  Committed entries are not re-submitted; a delivered submission —
fresh commit or duplicate-key rejection alike — moves the entry to
`committed`; a validation rejection fails it permanently; a transient
failure reverts it to `pending` for the next pass. -/
def drainStep (outcome : SubmitOutcome) (srv : ServerState) (op : PendingOp) :
    PendingOp × ServerState :=
  match op.status with
  | .committed => (op, srv)
  | _ =>
    match outcome with
    | .transientFailure =>
      ({ op with status := .pending, attemptCount := op.attemptCount + 1 }, srv)
    | .validationReject =>
      ({ op with status := .failed, attemptCount := op.attemptCount + 1 }, srv)
    | .delivered =>
      let r := serverSubmit srv op.idempotencyKey
      ({ op with status := .committed, attemptCount := op.attemptCount + 1 }, r.2)

/-- Modelled from the spec: one drain pass over the queue in enqueue
order; `sched i` is the network outcome of the `i`-th submission of the
pass. -/
def drain (sched : Nat → SubmitOutcome) :
    Nat → ServerState → List PendingOp → List PendingOp × ServerState
  | _, srv, [] => ([], srv)
  | i, srv, op :: rest =>
    let r := drainStep (sched i) srv op
    let q := drain sched (i + 1) r.2 rest
    (r.1 :: q.1, q.2)

/-! ## Codec lemmas -/

theorem natDigitsRev_eq_digits (fuel n : Nat) (h : n ≤ fuel) :
    natDigitsRev fuel n = Nat.digits 10 n := by
  induction fuel generalizing n with
  | zero =>
    interval_cases n
    simp [natDigitsRev]
  | succ fuel ih =>
    by_cases hn : n = 0
    · simp [natDigitsRev, hn]
    · rw [natDigitsRev, if_neg hn, ih (n / 10) ?_,
        Nat.digits_def' (by norm_num) (Nat.pos_of_ne_zero hn)]
      have := Nat.div_lt_self (Nat.pos_of_ne_zero hn) (by norm_num : 1 < 10)
      omega

/-- A character list that does not begin with a decimal digit (possibly
because it is empty). -/
def noLeadingDigit : List Char → Prop
  | [] => True
  | c :: _ => c.isDigit = false

theorem takeDigits_stop (cs : List Char) (h : noLeadingDigit cs) :
    takeDigits cs = ([], cs) := by
  cases cs with
  | nil => rfl
  | cons c rest => simp [takeDigits, noLeadingDigit] at h ⊢; simp [h]

theorem digitChar_isDigit (d : Nat) (h : d < 10) :
    (Nat.digitChar d).isDigit = true := by
  revert h; revert d; decide

theorem digitVal_digitChar (d : Nat) (h : d < 10) :
    digitVal (Nat.digitChar d) = d := by
  revert h; revert d; decide

theorem takeDigits_digits (ds : List Nat) (rest : List Char)
    (hds : ∀ d ∈ ds, d < 10) (hrest : noLeadingDigit rest) :
    takeDigits (ds.map Nat.digitChar ++ rest) = (ds, rest) := by
  induction ds with
  | nil => simpa using takeDigits_stop rest hrest
  | cons d ds ih =>
    have hd : d < 10 := hds d (by simp)
    have ih2 := ih (fun x hx => hds x (by simp [hx]))
    simp [takeDigits, digitChar_isDigit d hd, ih2, digitVal_digitChar d hd]

theorem natToChars_digits (n : Nat) :
    ∃ ds : List Nat, natToChars n = ds.map Nat.digitChar ∧ ds ≠ [] ∧
      (∀ d ∈ ds, d < 10) ∧ Nat.ofDigits 10 ds.reverse = n := by
  by_cases hn : n = 0
  · exact ⟨[0], by subst hn; decide, by simp, by simp, by simp [Nat.ofDigits, hn]⟩
  · refine ⟨(Nat.digits 10 n).reverse, ?_, ?_, ?_, ?_⟩
    · simp [natToChars, hn, natDigitsRev_eq_digits n n le_rfl]
    · simp [Nat.digits_ne_nil_iff_ne_zero, hn]
    · intro d hd
      exact Nat.digits_lt_base (by norm_num) (List.mem_reverse.mp hd)
    · simp [Nat.ofDigits_digits]

theorem parseNat_natToChars (n : Nat) (rest : List Char)
    (hrest : noLeadingDigit rest) :
    parseNat (natToChars n ++ rest) = some (n, rest) := by
  obtain ⟨ds, hmap, hne, hlt, hof⟩ := natToChars_digits n
  rw [hmap, parseNat, takeDigits_digits ds rest hlt hrest]
  cases ds with
  | nil => exact absurd rfl hne
  | cons d ds => simpa using hof

theorem natToChars_head_isDigit (n : Nat) (rest : List Char) :
    ∃ c cs, natToChars n ++ rest = c :: cs ∧ c.isDigit = true := by
  obtain ⟨ds, hmap, hne, hlt, -⟩ := natToChars_digits n
  cases ds with
  | nil => exact absurd rfl hne
  | cons d ds =>
    exact ⟨Nat.digitChar d, ds.map Nat.digitChar ++ rest, by simp [hmap],
      digitChar_isDigit d (hlt d (by simp))⟩

theorem parseInt_intToChars (n : Int) (rest : List Char)
    (hrest : noLeadingDigit rest) :
    parseInt (intToChars n ++ rest) = some (n, rest) := by
  by_cases hn : n < 0
  · have h1 : intToChars n ++ rest = '-' :: (natToChars n.natAbs ++ rest) := by
      simp [intToChars, hn]
    rw [h1, parseInt]
    simp [parseNat_natToChars n.natAbs rest hrest]
    have habs : |n| = -n := abs_of_neg hn
    omega
  · have h1 : intToChars n = natToChars n.toNat := by simp [intToChars, hn]
    obtain ⟨c, cs, hcons, hdig⟩ := natToChars_head_isDigit n.toNat rest
    have hcne : c ≠ '-' := by
      intro hc; rw [hc] at hdig; exact absurd hdig (by decide)
    rw [h1, parseInt, hcons]
    simp only [List.head?_cons, List.tail_cons]
    rw [if_neg (by simpa using hcne)]
    rw [← hcons, parseNat_natToChars n.toNat rest hrest]
    simp
    omega

theorem hexVal_digitChar (d : Nat) (h : d < 16) :
    hexVal (Nat.digitChar d) = some d := by
  revert h; revert d; decide

set_option maxHeartbeats 2000000 in
theorem parseStringBody_escape (cs rest : List Char) :
    parseStringBody (escapeString cs ++ '"' :: rest) = some (cs, rest) := by
  induction cs with
  | nil => simp [escapeString, parseStringBody]
  | cons c cs ih =>
    have hstep : escapeString (c :: cs) = escapeChar c ++ escapeString cs := by
      simp [escapeString]
    rw [hstep, List.append_assoc]
    unfold escapeChar
    split_ifs with h1 h2 h3 h4 h5 h6 h7 h8
    · subst h1; simp [parseStringBody, ih]
    · subst h2; simp [parseStringBody, ih]
    · have hc : Char.ofNat 8 = c := by rw [← h3]; exact Char.ofNat_toNat c
      simp [parseStringBody, ih, hc]
      exact hc
    · have hc : Char.ofNat 9 = c := by rw [← h4]; exact Char.ofNat_toNat c
      simp [parseStringBody, ih, hc]
      exact hc
    · have hc : Char.ofNat 10 = c := by rw [← h5]; exact Char.ofNat_toNat c
      simp [parseStringBody, ih, hc]
      exact hc
    · have hc : Char.ofNat 12 = c := by rw [← h6]; exact Char.ofNat_toNat c
      simp [parseStringBody, ih, hc]
      exact hc
    · have hc : Char.ofNat 13 = c := by rw [← h7]; exact Char.ofNat_toNat c
      simp [parseStringBody, ih, hc]
      exact hc
    · have hdiv : c.toNat / 16 < 16 := by omega
      have hmod : c.toNat % 16 < 16 := by omega
      have hself : c.toNat / 16 * 16 + c.toNat % 16 = c.toNat := by omega
      have hlt : c.toNat < 55296 := by omega
      have e0 : hexVal '0' = some 0 := by decide
      simp only [List.cons_append, List.nil_append]
      simp [parseStringBody, e0, hexVal_digitChar _ hdiv, hexVal_digitChar _ hmod,
        hself, hlt, ih, Char.ofNat_toNat]
    · simp [parseStringBody, ih, h1, h2]

set_option maxHeartbeats 1000000 in
/-- The canonical payload codec round-trips (helper form used throughout
the development). -/
theorem parsePayload_jsonStringify (p : QRPayload) :
    parsePayloadChars (jsonStringifyPayload p) = some p := by
  obtain ⟨pid, ts, v⟩ := p
  obtain ⟨idData⟩ := pid
  simp only [jsonStringifyPayload, List.cons_append, List.nil_append, List.append_assoc]
  simp [parsePayloadChars, parseStringBody_escape, parseInt_intToChars, noLeadingDigit]

/-- On a canonically encoded payload with a valid signature, the
verifier reduces to the freshness test. -/
theorem verifyQRSignature_valid_encoded (p : QRPayload) (now : Int) :
    verifyQRSignature true (jsonStringifyPayload p) now =
      if now - p.ts > maxAge then none else some p := by
  simp [verifyQRSignature, parsePayload_jsonStringify]

/-- A failed signature check short-circuits the verifier to null. -/
theorem verifyQRSignature_false (payloadChars : List Char) (now : Int) :
    verifyQRSignature false payloadChars now = none := rfl

/-! ## Claim theorems -/

/-- C2: the freshness check is boundary-inclusive on the fresh side — a
signed payload whose age `now - ts` is exactly the 24-hour maximum
passes verification, while one older by a single millisecond is
rejected. -/
theorem freshness_boundary_inclusive (p : QRPayload) (now : Int) :
    (now - p.ts = maxAge →
      verifyQRSignature true (jsonStringifyPayload p) now = some p) ∧
    (now - p.ts = maxAge + 1 →
      verifyQRSignature true (jsonStringifyPayload p) now = none) := by
  constructor
  · intro h
    rw [verifyQRSignature_valid_encoded, if_neg (by omega)]
  · intro h
    rw [verifyQRSignature_valid_encoded, if_pos (by omega)]

/-- Witness for C2 at a concrete payload and the two boundary
instants. -/
theorem freshness_boundary_inclusive_witness :
    ((86400000 : Int) - (0 : Int) = maxAge ∧
      verifyQRSignature true (jsonStringifyPayload ⟨"x", 0, 1⟩) 86400000 =
        some ⟨"x", 0, 1⟩) ∧
    ((86400001 : Int) - (0 : Int) = maxAge + 1 ∧
      verifyQRSignature true (jsonStringifyPayload ⟨"x", 0, 1⟩) 86400001 = none) :=
  ⟨⟨by decide, (freshness_boundary_inclusive ⟨"x", 0, 1⟩ 86400000).1 (by decide)⟩,
   ⟨by decide, (freshness_boundary_inclusive ⟨"x", 0, 1⟩ 86400001).2 (by decide)⟩⟩

/-- C3 counterexample: a fresh payload with unrecognized protocol
version 2 and a valid signature is accepted by `verifyQRSignature`, not
rejected as malformed — the version field is never inspected. -/
theorem version_not_rejected_counterexample :
    verifyQRSignature true (jsonStringifyPayload ⟨"abc", 0, 2⟩) 0 =
      some ⟨"abc", 0, 2⟩ := by decide

/-- C3 amended: verification does not validate the protocol version —
every fresh, signature-valid payload is accepted and returned unchanged,
whatever its version value. -/
theorem version_field_ignored (p : QRPayload) (now : Int)
    (hfresh : now - p.ts ≤ maxAge) :
    verifyQRSignature true (jsonStringifyPayload p) now = some p := by
  rw [verifyQRSignature_valid_encoded, if_neg (by omega)]

/-- Witness for the amended C3 at a version-7 payload. -/
theorem version_field_ignored_witness :
    ((0 : Int) - (0 : Int) ≤ maxAge) ∧
    verifyQRSignature true (jsonStringifyPayload ⟨"z", 0, 7⟩) 0 = some ⟨"z", 0, 7⟩ :=
  ⟨by decide, version_field_ignored ⟨"z", 0, 7⟩ 0 (by decide)⟩

/-- C4: the canonical payload codec round-trips — decoding the bytes
produced by encoding any payload yields that payload. -/
theorem codec_round_trip (p : QRPayload) :
    parsePayloadChars (jsonStringifyPayload p) = some p :=
  parsePayload_jsonStringify p

/-- C5 counterexample: a stale-but-authentic code (valid signature, age
one millisecond over the window) produces exactly the same endpoint
outcome as a code whose signature check fails — the same 400
invalid-signature response and no distinct Stale result, so the caller
cannot distinguish the two. -/
theorem stale_indistinguishable_counterexample :
    verifyRoute (some ⟨"peche:", "verify", some "D", some "S"⟩) (fun _ _ => true)
        (fun _ => jsonStringifyPayload ⟨"abc", 0, 1⟩) (fun _ => none) 86400001
      = (.invalidSignature, []) ∧
    verifyRoute (some ⟨"peche:", "verify", some "D", some "S"⟩) (fun _ _ => false)
        (fun _ => jsonStringifyPayload ⟨"abc", 0, 1⟩) (fun _ => none) 0
      = (.invalidSignature, []) := by decide

/-- C5 amended: a scanned code whose signature verifies but whose age
exceeds the freshness window is rejected, but not as a distinct Stale
result: `verifyQRSignature` collapses it to the same null as a signature
failure and the endpoint answers with the identical invalid-signature
response, so the caller cannot tell a stale-but-authentic code from a
forged one. -/
theorem stale_collapses_to_invalid (p : QRPayload) (d sg : String)
    (store : String → Option PermitRecord) (now : Int)
    (hstale : now - p.ts > maxAge) :
    verifyRoute (some ⟨"peche:", "verify", some d, some sg⟩) (fun _ _ => true)
        (fun _ => jsonStringifyPayload p) store now
      = verifyRoute (some ⟨"peche:", "verify", some d, some sg⟩) (fun _ _ => false)
        (fun _ => jsonStringifyPayload p) store now ∧
    verifyRoute (some ⟨"peche:", "verify", some d, some sg⟩) (fun _ _ => true)
        (fun _ => jsonStringifyPayload p) store now = (.invalidSignature, []) := by
  have hv : verifyQRSignature true (jsonStringifyPayload p) now = none := by
    rw [verifyQRSignature_valid_encoded, if_pos hstale]
  constructor
  · simp [verifyRoute, hv, verifyQRSignature_false]
  · simp [verifyRoute, hv]

/-- Witness for the amended C5 at a concrete stale instant. -/
theorem stale_collapses_to_invalid_witness :
    ((86400001 : Int) - (0 : Int) > maxAge) ∧
    verifyRoute (some ⟨"peche:", "verify", some "D", some "S"⟩) (fun _ _ => true)
        (fun _ => jsonStringifyPayload ⟨"abc", 0, 1⟩) (fun _ => none) 86400001
      = (.invalidSignature, []) :=
  ⟨by decide,
    (stale_collapses_to_invalid ⟨"abc", 0, 1⟩ "D" "S" (fun _ => none) 86400001
      (by decide)).2⟩

/-- C6 counterexample: a verification attempt ending in
InvalidSignature appends no ScanAuditEntry at all — the scan-log list
stays empty, where the claim requires an entry tagged invalid. -/
theorem no_audit_on_failure_counterexample :
    verifyRoute (some ⟨"peche:", "verify", some "D", some "S"⟩) (fun _ _ => false)
        (fun _ => []) (fun _ => none) 0
      = (.invalidSignature, []) := by decide

/-- C6 amended: a ScanAuditEntry is appended only by verification
attempts that resolve a permit record, tagged `expired` or `valid` and
mode `online`; attempts ending in a format error, invalid signature,
staleness, or record-not-found append nothing. -/
theorem audit_only_after_lookup (urlParse : Option ParsedUrl)
    (sigValid : String → String → Bool) (b64decode : String → List Char)
    (store : String → Option PermitRecord) (now : Int) :
    (verifyRoute urlParse sigValid b64decode store now).2 =
      match (verifyRoute urlParse sigValid b64decode store now).1 with
      | .ok e permit =>
          [⟨permit.cardId, none, if e then "expired" else "valid", "online"⟩]
      | _ => [] := by
  cases urlParse with
  | none => rfl
  | some u =>
    by_cases hp : u.protocol = "peche:" ∧ u.hostname = "verify"
    · cases hd : u.d with
      | none => simp [verifyRoute, hp.1, hp.2, hd]
      | some payload =>
        cases hs : u.s with
        | none => simp [verifyRoute, hp.1, hp.2, hd, hs]
        | some sg =>
          cases hv : verifyQRSignature (sigValid payload sg) (b64decode payload) now with
          | none => simp [verifyRoute, hp.1, hp.2, hd, hs, hv]
          | some qr =>
            cases hst : store qr.id with
            | none => simp [verifyRoute, hp.1, hp.2, hd, hs, hv, hst]
            | some permit => simp [verifyRoute, hp.1, hp.2, hd, hs, hv, hst]
    · simp [verifyRoute, hp]

/-- C7 counterexample: non-URI input (the `new URL` constructor throws)
is answered by the generic 500 response of the outer catch, which
carries no result classification — an error state rather than one of the
defined classifications. -/
theorem generic_error_counterexample :
    verifyRoute none (fun _ _ => true) (fun _ => []) (fun _ => none) 0
      = (.serverError, []) ∧
    hasClassification .serverError = false := by decide

/-- C7 amended: the endpoint always terminates with a handled response,
and every input passing the scannable-shape check receives a definite
classification (invalid, expired or valid); but non-URI input receives
the generic 500 error response with no classification, and
shape-mismatched URLs receive 400 responses with no classification
field. -/
theorem classification_after_shape_check :
    (∀ (u : ParsedUrl) (sigValid : String → String → Bool)
        (b64decode : String → List Char) (store : String → Option PermitRecord)
        (now : Int), shapeOk u = true →
      hasClassification (verifyRoute (some u) sigValid b64decode store now).1 = true) ∧
    (∀ (sigValid : String → String → Bool) (b64decode : String → List Char)
        (store : String → Option PermitRecord) (now : Int),
      verifyRoute none sigValid b64decode store now = (.serverError, [])) := by
  constructor
  · intro u sigValid b64decode store now hshape
    simp only [shapeOk, Bool.and_eq_true, decide_eq_true_eq, Option.isSome_iff_exists]
      at hshape
    obtain ⟨⟨⟨hp, hh⟩, d, hd⟩, sg, hs⟩ := hshape
    cases hv : verifyQRSignature (sigValid d sg) (b64decode d) now with
    | none => simp [verifyRoute, hp, hh, hd, hs, hv, hasClassification]
    | some qr =>
      cases hst : store qr.id with
      | none => simp [verifyRoute, hp, hh, hd, hs, hv, hst, hasClassification]
      | some permit => simp [verifyRoute, hp, hh, hd, hs, hv, hst, hasClassification]
  · intro sigValid b64decode store now
    rfl

/-- Witness for the amended C7 at a concrete shape-valid input. -/
theorem classification_after_shape_check_witness :
    shapeOk ⟨"peche:", "verify", some "D", some "S"⟩ = true ∧
    hasClassification
      (verifyRoute (some ⟨"peche:", "verify", some "D", some "S"⟩)
        (fun _ _ => false) (fun _ => []) (fun _ => none) 0).1 = true :=
  ⟨by decide,
    classification_after_shape_check.1 ⟨"peche:", "verify", some "D", some "S"⟩
      (fun _ _ => false) (fun _ => []) (fun _ => none) 0 (by decide)⟩

/-- C8: any input failing the exact scannable-code shape check (scheme
`peche:`, action `verify`, both `d` and `s` present) is rejected with a
format response that is independent of the signature oracle, the payload
decoder, the store and the clock — no cryptographic check is
attempted. -/
theorem shape_rejected_before_crypto (u : ParsedUrl)
    (f g : String → String → Bool) (bf bg : String → List Char)
    (sf sg : String → Option PermitRecord) (nf ng : Int)
    (h : shapeOk u = false) :
    verifyRoute (some u) f bf sf nf = verifyRoute (some u) g bg sg ng ∧
    ((verifyRoute (some u) f bf sf nf).1 = .badFormat ∨
      (verifyRoute (some u) f bf sf nf).1 = .missingData) := by
  by_cases hp : u.protocol = "peche:" ∧ u.hostname = "verify"
  · have hds : u.d = none ∨ u.s = none := by
      simp only [shapeOk, hp.1, hp.2, Bool.and_eq_false_iff] at h
      rcases h with h | h
      · rcases h with h | h
        · simp at h
        · left; simpa using h
      · right; simpa using h
    rcases hds with hd | hsn
    · refine ⟨?_, ?_⟩ <;> cases hs : u.s <;> simp [verifyRoute, hp.1, hp.2, hd, hs]
    · refine ⟨?_, ?_⟩ <;> cases hd : u.d <;> simp [verifyRoute, hp.1, hp.2, hd, hsn]
  · exact ⟨by simp [verifyRoute, hp], by simp [verifyRoute, hp]⟩

/-- Witness for C8 at a concrete wrong-scheme input. -/
theorem shape_rejected_before_crypto_witness :
    shapeOk ⟨"http:", "verify", some "D", some "S"⟩ = false ∧
    verifyRoute (some ⟨"http:", "verify", some "D", some "S"⟩)
        (fun _ _ => true) (fun _ => []) (fun _ => none) 0
      = verifyRoute (some ⟨"http:", "verify", some "D", some "S"⟩)
        (fun _ _ => false) (fun _ => ['x']) (fun _ => none) 5 :=
  ⟨by decide,
    (shape_rejected_before_crypto ⟨"http:", "verify", some "D", some "S"⟩
      (fun _ _ => true) (fun _ _ => false) (fun _ => []) (fun _ => ['x'])
      (fun _ => none) (fun _ => none) 0 5 (by decide)).1⟩

/-- C9 counterexample: malformed-but-nonempty key material (a string
that is not a PEM block at all) passes the startup check — module
initialization succeeds instead of failing fatally, so malformedness
surfaces only later, per request. -/
theorem malformed_key_passes_startup_counterexample :
    looksLikePem "garbage-not-a-key" = false ∧
    initKeys (some "garbage-not-a-key") (some "garbage-key-2") =
      Except.ok ⟨"garbage-not-a-key", "garbage-key-2"⟩ := ⟨by decide, rfl⟩

/-- C9 amended: missing key material — an unset or empty environment
variable — is fatal at module load with the startup error message,
before any request is served; on success the key bindings hold exactly
the environment values and are read-only thereafter (`getPublicKey`
returns the stored key unchanged).  Malformed-but-nonempty key material
is not detected at startup. -/
theorem startup_key_check :
    (∀ priv pub : Option String,
      envTruthy priv = false ∨ envTruthy pub = false →
        initKeys priv pub = Except.error
          "QR_PRIVATE_KEY and QR_PUBLIC_KEY environment variables must be set") ∧
    (∀ (priv pub : Option String) (k : KeyMaterial),
      initKeys priv pub = Except.ok k →
        priv = some k.privateKey ∧ pub = some k.publicKey ∧
          getPublicKey k = k.publicKey) := by
  constructor
  · intro priv pub hmiss
    rw [initKeys, if_pos (by simpa using hmiss)]
  · intro priv pub k hok
    rw [initKeys] at hok
    split_ifs at hok with hcond
    obtain ⟨hpt, hqt⟩ := not_or.mp hcond
    simp only [Bool.not_eq_false] at hpt hqt
    cases priv with
    | none => simp [envTruthy] at hpt
    | some ps =>
      cases pub with
      | none => simp [envTruthy] at hqt
      | some qs =>
        obtain rfl : (⟨ps, qs⟩ : KeyMaterial) = k := by
          simpa [Option.getD] using hok
        exact ⟨rfl, rfl, rfl⟩

/-- Witness for the amended C9: an absent private key is fatal, and a
successful initialization exposes exactly the environment values. -/
theorem startup_key_check_witness :
    ((envTruthy none = false ∨ envTruthy (some "pk") = false) ∧
      initKeys none (some "pk") = Except.error
        "QR_PRIVATE_KEY and QR_PUBLIC_KEY environment variables must be set") ∧
    (initKeys (some "a") (some "b") = Except.ok ⟨"a", "b"⟩ ∧
      some "a" = some (KeyMaterial.privateKey ⟨"a", "b"⟩) ∧
      getPublicKey ⟨"a", "b"⟩ = "b") :=
  ⟨⟨Or.inl (by decide), startup_key_check.1 none (some "pk") (Or.inl (by decide))⟩,
   ⟨rfl, (startup_key_check.2 (some "a") (some "b") ⟨"a", "b"⟩ rfl).1,
     (startup_key_check.2 (some "a") (some "b") ⟨"a", "b"⟩ rfl).2.2⟩⟩

/-- C10: the business-expiration comparison is the same `expiration <=
now` in the server verify endpoint, the CSV export and the client card
display, and it is inclusive on the expired side — a permit whose
expiration instant equals the current instant classifies as expired. -/
theorem expiration_boundary_inclusive (e n : Int) :
    isExpiredVerifyRoute e n = isExpiredCsvExport e n ∧
    isExpiredVerifyRoute e n = isExpiredPermitCard e n ∧
    isExpiredVerifyRoute e e = true ∧
    (isExpiredVerifyRoute e n = true ↔ e ≤ n) := by
  refine ⟨rfl, rfl, by simp [isExpiredVerifyRoute], by simp [isExpiredVerifyRoute]⟩

/-! ## C1: exactly-once commit through the offline drain -/

theorem serverSubmit_nodup (srv : ServerState) (key : String)
    (h : srv.committedKeys.Nodup) :
    (serverSubmit srv key).2.committedKeys.Nodup := by
  unfold serverSubmit
  split_ifs with hk
  · exact h
  · exact List.nodup_cons.mpr ⟨hk, h⟩

theorem drainStep_nodup (outcome : SubmitOutcome) (srv : ServerState)
    (op : PendingOp) (h : srv.committedKeys.Nodup) :
    (drainStep outcome srv op).2.committedKeys.Nodup := by
  unfold drainStep
  cases op.status <;> cases outcome <;>
    first
      | exact h
      | exact serverSubmit_nodup srv op.idempotencyKey h

theorem drain_nodup (sched : Nat → SubmitOutcome) (i : Nat) (srv : ServerState)
    (q : List PendingOp) (h : srv.committedKeys.Nodup) :
    (drain sched i srv q).2.committedKeys.Nodup := by
  induction q generalizing i srv with
  | nil => exact h
  | cons op rest ih =>
    exact ih (i + 1) (drainStep (sched i) srv op).2
      (drainStep_nodup (sched i) srv op h)

/-- C1: exactly-once effect of the offline write queue (modelled from
the spec, section 4.4, since `offline-storage.ts` and the server storage
layer are not under src/).  First, starting from a duplicate-free
authoritative store, any drain pass under any network schedule leaves
the store duplicate-free: at most one committed record ever exists per
idempotency key.  Second, a server-side duplicate-key rejection during
drain is treated as success: the entry moves to `committed` and the
store is unchanged — no second record.  Third, an entry already
`committed` is never re-submitted by a drain step. -/
theorem offline_drain_exactly_once :
    (∀ (sched : Nat → SubmitOutcome) (i : Nat) (srv : ServerState)
        (q : List PendingOp), srv.committedKeys.Nodup →
      (drain sched i srv q).2.committedKeys.Nodup ∧
        ∀ k, (drain sched i srv q).2.committedKeys.count k ≤ 1) ∧
    (∀ (srv : ServerState) (op : PendingOp),
      op.idempotencyKey ∈ srv.committedKeys → op.status ≠ .committed →
        drainStep .delivered srv op =
          ({ op with status := .committed, attemptCount := op.attemptCount + 1 },
            srv)) ∧
    (∀ (outcome : SubmitOutcome) (srv : ServerState) (op : PendingOp),
      op.status = .committed → drainStep outcome srv op = (op, srv)) := by
  refine ⟨?_, ?_, ?_⟩
  · intro sched i srv q h
    have hn := drain_nodup sched i srv q h
    exact ⟨hn, fun k => List.nodup_iff_count_le_one.mp hn k⟩
  · intro srv op hmem hst
    unfold drainStep
    cases hs : op.status <;> simp_all [serverSubmit, hmem]
  · intro outcome srv op hst
    unfold drainStep
    rw [hst]

/-- Witness for C1: a queue that submits the same idempotency key twice
in one delivered pass commits it once; a duplicate-key rejection leaves
the store unchanged and the entry committed; a committed entry is left
untouched. -/
theorem offline_drain_exactly_once_witness :
    ((⟨[]⟩ : ServerState).committedKeys.Nodup ∧
      (drain (fun _ => .delivered) 0 ⟨[]⟩
        [⟨"k", 0, .pending⟩, ⟨"k", 3, .pending⟩]).2.committedKeys.Nodup ∧
      (drain (fun _ => .delivered) 0 ⟨[]⟩
        [⟨"k", 0, .pending⟩, ⟨"k", 3, .pending⟩]).2.committedKeys.count "k" ≤ 1) ∧
    (("k" ∈ (⟨["k"]⟩ : ServerState).committedKeys) ∧
      drainStep .delivered ⟨["k"]⟩ ⟨"k", 0, .pending⟩ =
        (⟨"k", 1, .committed⟩, ⟨["k"]⟩)) ∧
    drainStep .transientFailure ⟨[]⟩ ⟨"k", 1, .committed⟩ =
      (⟨"k", 1, .committed⟩, ⟨[]⟩) :=
  ⟨⟨by decide,
    (offline_drain_exactly_once.1 (fun _ => .delivered) 0 ⟨[]⟩
      [⟨"k", 0, .pending⟩, ⟨"k", 3, .pending⟩] (by decide)).1,
    (offline_drain_exactly_once.1 (fun _ => .delivered) 0 ⟨[]⟩
      [⟨"k", 0, .pending⟩, ⟨"k", 3, .pending⟩] (by decide)).2 "k"⟩,
   ⟨by decide,
    offline_drain_exactly_once.2.1 ⟨["k"]⟩ ⟨"k", 0, .pending⟩ (by decide) (by decide)⟩,
   offline_drain_exactly_once.2.2 .transientFailure ⟨[]⟩ ⟨"k", 1, .committed⟩ rfl⟩

end PermisCollecte
